import Mathlib

/-
Shallow embedding of the token-lifecycle and request-execution core of the
pympesa client (src/mpesa-sdk/mpesa.py, class Mpesa).

Modelling decisions, all taken from the source:
  * JSON values are an inductive type; Python dict.get is Json.get.
  * The token-exchange collaborator (oauth_generate_token, defined in the
    external auth module) and the HTTP transport (requests.request) are
    oracles carried in a context Ctx: exchFn gives the outcome of the n-th
    exchange call, netFn the outcome of the n-th HTTP request.  Counting
    calls this way lets theorems state "no exchange call" / "exactly one
    HTTP call" exactly.
  * datetime.now() is the fixed instant Ctx.now (integer ticks); no claim
    depends on time advancing inside a single call.
  * The class-level attributes Mpesa._access_token / Mpesa._token_expiry
    (mpesa.py lines 79-80) are process-wide shared state, modelled as the
    field shared of the threaded state St, separate from any instance.
  * requests.Response.raise_for_status (mpesa.py line 130) raises HTTPError,
    a subclass of RequestException, for every status code s with
    400 <= s < 600; the except branch then returns None.  This is embedded
    faithfully in make_request.
  * raising Exception("Failed to obtain access token") (line 112) is
    Except.error (); returning normally is Except.ok.
  * The per-operation pydantic validators (external mpesa_models module) and
    the URL resolver (external mpesa_urls module) are collaborators: a
    validator is an injected function returning some payload (the
    model(**data).dict() result) or none (ValidationError); URLs do not
    affect any modelled behaviour and are omitted.
-/

namespace Pympesa

/-- JSON values, as produced by requests.Response.json(). -/
inductive Json where
  | null : Json
  | bool : Bool → Json
  | num : Int → Json
  | str : String → Json
  | arr : List Json → Json
  | obj : List (String × Json) → Json
deriving Repr

/-- First-match lookup in an association list of JSON object fields. -/
def lookupField : List (String × Json) → String → Option Json
  | [], _ => none
  | (k, v) :: rest, key => if k = key then some v else lookupField rest key

/-- Python dict.get on a JSON value: field lookup on objects, none otherwise.
(On a non-object Python would raise AttributeError; the only call site,
response.get on line 156 of mpesa.py, is reached only for bodies the code
actually inspects, and the model gives none there, which like Python never
equals the sentinel string.) -/
def Json.get : Json → String → Option Json
  | Json.obj fields, key => lookupField fields key
  | _, _ => none

/-- Result of one oauth_generate_token exchange: key presence in the returned
token_data dict.  access_token = some t models the key "access_token" mapped
to string t; expires_in = some n models the key "expires_in" mapped to an
integer n (mpesa.py applies int() to it).  A missing/empty/token-less
response all take the failure branch of _set_access_token. -/
structure TokenData where
  access_token : Option String
  expires_in : Option Int
deriving Repr, DecidableEq

/-- Outcome of one requests.request call: a transport-level
RequestException (fail) or a completed HTTP response. -/
inductive NetEvent where
  | fail : NetEvent
  | resp : Nat → Json → NetEvent
deriving Repr

/-- The process-wide class attributes Mpesa._access_token and
Mpesa._token_expiry (mpesa.py lines 79-80). -/
structure TokenState where
  access_token : Option String
  token_expiry : Option Int
deriving Repr, DecidableEq

/-- External world: the exchange collaborator, the HTTP transport and the
clock.  exchFn n is the outcome of the n-th oauth_generate_token call,
netFn n the outcome of the n-th requests.request call. -/
structure Ctx where
  exchFn : Nat → Option TokenData
  netFn : Nat → NetEvent
  now : Int

/-- Instance attributes of one Mpesa object: credentials, environment and
the per-instance headers dict (the Authorization header value, none before
__init__ line 99 runs). -/
structure MpesaInst where
  consumer_key : String
  consumer_secret : String
  env : String
  headers : Option String
deriving Repr, DecidableEq

/-- Mutable process state threaded through every call: the shared token
state plus how many exchange calls and HTTP calls have been issued. -/
structure St where
  shared : TokenState
  exchCount : Nat
  netCount : Nat
deriving Repr, DecidableEq

/-- State of a fresh process: no token, no expiry, no calls issued. -/
def initialSt : St :=
  { shared := { access_token := none, token_expiry := none },
    exchCount := 0, netCount := 0 }

/-- Mpesa._set_access_token (mpesa.py lines 101-112): call
oauth_generate_token once; if it returned a dict containing "access_token",
set the class-level token and expiry (now + int(expires_in), expires_in
defaulting to 3600) and the instance headers; otherwise raise. -/
def set_access_token (ctx : Ctx) (inst : MpesaInst) (st : St) :
    Except Unit (MpesaInst × St) :=
  match ctx.exchFn st.exchCount with
  | none => Except.error ()
  | some d =>
    match d.access_token with
    | none => Except.error ()
    | some tok =>
      Except.ok
        ({ inst with headers := some ("Bearer " ++ tok) },
         { st with
            exchCount := st.exchCount + 1,
            shared :=
              { access_token := some tok,
                token_expiry := some (ctx.now + d.expires_in.getD 3600) } })

/-- Mpesa._is_token_expired (mpesa.py lines 114-116): true when no expiry is
stored or now is at or past the stored expiry. -/
def is_token_expired (ctx : Ctx) (ts : TokenState) : Bool :=
  match ts.token_expiry with
  | none => true
  | some e => decide (e ≤ ctx.now)

/-- Mpesa._ensure_valid_token (mpesa.py lines 118-120): refresh exactly when
the token is expired, otherwise do nothing. -/
def ensure_valid_token (ctx : Ctx) (inst : MpesaInst) (st : St) :
    Except Unit (MpesaInst × St) :=
  if is_token_expired ctx st.shared then set_access_token ctx inst st
  else Except.ok (inst, st)

/-- What Mpesa._make_request hands back: None (transport failure or, via
raise_for_status, any 4xx/5xx response) or the completed response. -/
inductive ReqResult where
  | failed : ReqResult
  | response : Nat → Json → ReqResult
deriving Repr

/-- Mpesa._make_request (mpesa.py lines 122-134): ensure a valid token, then
issue one HTTP call.  A RequestException is caught and None is returned;
raise_for_status (line 130) raises HTTPError, also a RequestException, for
every status in [400, 600), so such responses also come back as None. -/
def make_request (ctx : Ctx) (inst : MpesaInst) (st : St) :
    Except Unit (ReqResult × MpesaInst × St) :=
  match ensure_valid_token ctx inst st with
  | Except.error e => Except.error e
  | Except.ok (inst1, st1) =>
    match ctx.netFn st1.netCount with
    | NetEvent.fail =>
      Except.ok (ReqResult.failed, inst1, { st1 with netCount := st1.netCount + 1 })
    | NetEvent.resp status body =>
      if 400 ≤ status ∧ status < 600 then
        Except.ok (ReqResult.failed, inst1, { st1 with netCount := st1.netCount + 1 })
      else
        Except.ok (ReqResult.response status body, inst1,
          { st1 with netCount := st1.netCount + 1 })

/-- Body of the local validation-failure result (mpesa.py line 147). -/
def validationErrorBody : Json := Json.obj [("message", Json.str "Validation error")]

/-- Body of the transport-failure result (mpesa.py line 153). -/
def requestFailedBody : Json := Json.obj [("message", Json.str "Request failed")]

/-- Body of the transport-failure-after-refresh result (mpesa.py line 160). -/
def requestFailedAfterRefreshBody : Json :=
  Json.obj [("message", Json.str "Request failed after token refresh")]

/-- The stale-token error code checked on mpesa.py line 156. -/
def staleTokenSentinel : String := "404.001.03"

/-- The condition of mpesa.py line 156: status code 401 and the body's
errorCode field equal to the sentinel string. -/
def isStaleTokenResponse (status : Nat) (body : Json) : Bool :=
  status == 401 &&
    (match body.get "errorCode" with
     | some (Json.str s) => s == staleTokenSentinel
     | _ => false)

/-- Mpesa._process_and_request (mpesa.py lines 136-163), with the pydantic
validation step already performed by the injected validator: validated is
some payload (model(**data).dict() succeeded) or none (ValidationError).
On none: return the validation-error result without touching the network.
Otherwise issue the request; None becomes the 500 "Request failed" result;
a 401 response bearing the stale-token sentinel triggers one forced refresh
and one retried call; everything else is returned as (body, status). -/
def process_and_request (ctx : Ctx) (inst : MpesaInst) (validated : Option Json)
    (st : St) : Except Unit ((Json × Nat) × MpesaInst × St) :=
  match validated with
  | none => Except.ok ((validationErrorBody, 400), inst, st)
  | some _payload =>
    match make_request ctx inst st with
    | Except.error e => Except.error e
    | Except.ok (ReqResult.failed, inst1, st1) =>
      Except.ok ((requestFailedBody, 500), inst1, st1)
    | Except.ok (ReqResult.response status body, inst1, st1) =>
      if isStaleTokenResponse status body then
        match set_access_token ctx inst1 st1 with
        | Except.error e => Except.error e
        | Except.ok (inst2, st2) =>
          match make_request ctx inst2 st2 with
          | Except.error e => Except.error e
          | Except.ok (ReqResult.failed, inst3, st3) =>
            Except.ok ((requestFailedAfterRefreshBody, 500), inst3, st3)
          | Except.ok (ReqResult.response status2 body2, inst3, st3) =>
            Except.ok ((body2, status2), inst3, st3)
      else
        Except.ok ((body, status), inst1, st1)

/-- The 9 operation kinds (mpesa.py lines 165-226). -/
inductive Operation where
  | b2bPayment : Operation
  | b2cPayment : Operation
  | c2bRegisterUrl : Operation
  | c2bSimulate : Operation
  | transactionStatus : Operation
  | accountBalance : Operation
  | reversal : Operation
  | lipaNaMpesaQuery : Operation
  | lipaNaMpesaPayment : Operation
deriving Repr, DecidableEq

/-- A family of injected validators, one per operation: the outcome of
model(**data).dict() for that operation's pydantic model (some payload) or
ValidationError (none).  The schema definitions live in the external
mpesa_models module. -/
def Validators : Type := Operation → Json → Option Json

/-- An operation method: validate against the operation's schema, then run
_process_and_request.  (URL resolution, line 149, has no modelled effect.) -/
def dispatch (ctx : Ctx) (inst : MpesaInst) (v : Validators) (op : Operation)
    (data : Json) (st : St) : Except Unit ((Json × Nat) × MpesaInst × St) :=
  process_and_request ctx inst (v op data) st

/-- Mpesa.b2b_payment_request (mpesa.py lines 165-170). -/
def b2b_payment_request (ctx : Ctx) (inst : MpesaInst) (v : Validators)
    (data : Json) (st : St) : Except Unit ((Json × Nat) × MpesaInst × St) :=
  dispatch ctx inst v Operation.b2bPayment data st

/-- Mpesa.b2c_payment_request (mpesa.py lines 172-177). -/
def b2c_payment_request (ctx : Ctx) (inst : MpesaInst) (v : Validators)
    (data : Json) (st : St) : Except Unit ((Json × Nat) × MpesaInst × St) :=
  dispatch ctx inst v Operation.b2cPayment data st

/-- Mpesa.c2b_register_url (mpesa.py lines 179-184). -/
def c2b_register_url (ctx : Ctx) (inst : MpesaInst) (v : Validators)
    (data : Json) (st : St) : Except Unit ((Json × Nat) × MpesaInst × St) :=
  dispatch ctx inst v Operation.c2bRegisterUrl data st

/-- Mpesa.c2b_simulate_transaction (mpesa.py lines 186-191). -/
def c2b_simulate_transaction (ctx : Ctx) (inst : MpesaInst) (v : Validators)
    (data : Json) (st : St) : Except Unit ((Json × Nat) × MpesaInst × St) :=
  dispatch ctx inst v Operation.c2bSimulate data st

/-- Mpesa.transaction_status_request (mpesa.py lines 193-198). -/
def transaction_status_request (ctx : Ctx) (inst : MpesaInst) (v : Validators)
    (data : Json) (st : St) : Except Unit ((Json × Nat) × MpesaInst × St) :=
  dispatch ctx inst v Operation.transactionStatus data st

/-- Mpesa.account_balance_request (mpesa.py lines 200-205). -/
def account_balance_request (ctx : Ctx) (inst : MpesaInst) (v : Validators)
    (data : Json) (st : St) : Except Unit ((Json × Nat) × MpesaInst × St) :=
  dispatch ctx inst v Operation.accountBalance data st

/-- Mpesa.reversal_request (mpesa.py lines 207-212). -/
def reversal_request (ctx : Ctx) (inst : MpesaInst) (v : Validators)
    (data : Json) (st : St) : Except Unit ((Json × Nat) × MpesaInst × St) :=
  dispatch ctx inst v Operation.reversal data st

/-- Mpesa.lipa_na_mpesa_online_query (mpesa.py lines 214-219). -/
def lipa_na_mpesa_online_query (ctx : Ctx) (inst : MpesaInst) (v : Validators)
    (data : Json) (st : St) : Except Unit ((Json × Nat) × MpesaInst × St) :=
  dispatch ctx inst v Operation.lipaNaMpesaQuery data st

/-- Mpesa.lipa_na_mpesa_online_payment (mpesa.py lines 221-226). -/
def lipa_na_mpesa_online_payment (ctx : Ctx) (inst : MpesaInst) (v : Validators)
    (data : Json) (st : St) : Except Unit ((Json × Nat) × MpesaInst × St) :=
  dispatch ctx inst v Operation.lipaNaMpesaPayment data st

/-- The f-string on mpesa.py lines 99 and 109; a missing token would render
as the Python literal None. -/
def bearerHeader : Option String → String
  | some t => "Bearer " ++ t
  | none => "Bearer None"

/-- Mpesa.__init__ (mpesa.py lines 82-99): store credentials and
environment; if the class-level token is absent or expired, refresh; then
set the instance headers from the class-level token. -/
def mkMpesa (ctx : Ctx) (key secret environ : String) (st : St) :
    Except Unit (MpesaInst × St) :=
  if st.shared.access_token.isNone || is_token_expired ctx st.shared then
    match set_access_token ctx ⟨key, secret, environ, none⟩ st with
    | Except.error e => Except.error e
    | Except.ok (inst1, st1) =>
      Except.ok ({ inst1 with headers := some (bearerHeader st1.shared.access_token) }, st1)
  else
    Except.ok (⟨key, secret, environ, some (bearerHeader st.shared.access_token)⟩, st)


/-! Helper notions and lemmas shared by the claim theorems. -/

/-- The exchange outcome Mpesa._set_access_token rejects (mpesa.py lines
105 and 110-112): no token_data dict at all, or one without an
access_token field. -/
def badExchange : Option TokenData → Prop
  | none => True
  | some d => d.access_token = none

/-- A token state produced by storing some successful exchange outcome:
token string and expiry instant both come from the same token_data dict,
the expiry being now plus the (defaulted) expires_in. -/
def refreshedFrom (ctx : Ctx) (ts : TokenState) : Prop :=
  ∃ n td tok, ctx.exchFn n = some td ∧ td.access_token = some tok ∧
    ts = { access_token := some tok,
           token_expiry := some (ctx.now + td.expires_in.getD 3600) }

/-- A successful _set_access_token call consumed exactly one exchange
outcome, which carried an access token, and stored token, expiry and
headers accordingly. -/
theorem set_access_token_ok {ctx : Ctx} {inst : MpesaInst} {st : St}
    {r : MpesaInst × St} (h : set_access_token ctx inst st = Except.ok r) :
    ∃ td tok, ctx.exchFn st.exchCount = some td ∧ td.access_token = some tok ∧
      r = ({ inst with headers := some ("Bearer " ++ tok) },
           { st with exchCount := st.exchCount + 1,
                     shared := { access_token := some tok,
                                 token_expiry := some (ctx.now + td.expires_in.getD 3600) } }) := by
  cases hx : ctx.exchFn st.exchCount with
  | none => simp [set_access_token, hx] at h
  | some d =>
    cases ht : d.access_token with
    | none => simp [set_access_token, hx, ht] at h
    | some tok =>
      simp only [set_access_token, hx, ht] at h
      refine ⟨d, tok, rfl, ht, ?_⟩
      injection h with h2
      exact h2.symm

/-- A bad exchange outcome makes _set_access_token raise. -/
theorem set_access_token_error {ctx : Ctx} (inst : MpesaInst) (st : St)
    (h : badExchange (ctx.exchFn st.exchCount)) :
    set_access_token ctx inst st = Except.error () := by
  cases hx : ctx.exchFn st.exchCount with
  | none => simp [set_access_token, hx]
  | some d =>
    rw [hx] at h
    simp only [badExchange] at h
    simp [set_access_token, hx, h]

/-- _set_access_token raises only on a bad exchange outcome. -/
theorem badExchange_of_set_error {ctx : Ctx} {inst : MpesaInst} {st : St}
    (h : set_access_token ctx inst st = Except.error ()) :
    badExchange (ctx.exchFn st.exchCount) := by
  cases hx : ctx.exchFn st.exchCount with
  | none => simp [badExchange]
  | some d =>
    cases ht : d.access_token with
    | none => simp [badExchange, ht]
    | some tok => simp [set_access_token, hx, ht] at h

/-- The state left by a successful _set_access_token satisfies
refreshedFrom. -/
theorem refreshedFrom_of_set_ok {ctx : Ctx} {inst : MpesaInst} {st : St}
    {i1 : MpesaInst} {s1 : St}
    (h : set_access_token ctx inst st = Except.ok (i1, s1)) :
    refreshedFrom ctx s1.shared := by
  obtain ⟨td, tok, hx, ht, hr⟩ := set_access_token_ok h
  refine ⟨st.exchCount, td, tok, hx, ht, ?_⟩
  rw [Prod.ext_iff] at hr
  exact congrArg St.shared hr.2

/-- _ensure_valid_token raises only on a bad exchange outcome. -/
theorem badExchange_of_ensure_error {ctx : Ctx} {inst : MpesaInst} {st : St}
    (h : ensure_valid_token ctx inst st = Except.error ()) :
    badExchange (ctx.exchFn st.exchCount) := by
  unfold ensure_valid_token at h
  split at h
  · exact badExchange_of_set_error h
  · exact absurd h (by simp)

/-- _ensure_valid_token leaves the shared token state unchanged or replaces
it wholesale with a freshly exchanged one. -/
theorem shared_of_ensure_ok {ctx : Ctx} {inst : MpesaInst} {st : St}
    {i1 : MpesaInst} {s1 : St}
    (h : ensure_valid_token ctx inst st = Except.ok (i1, s1)) :
    s1.shared = st.shared ∨ refreshedFrom ctx s1.shared := by
  unfold ensure_valid_token at h
  split at h
  · exact Or.inr (refreshedFrom_of_set_ok h)
  · injection h with h2
    rw [Prod.ext_iff] at h2
    exact Or.inl (congrArg St.shared h2.2).symm

/-- _make_request raises only on a bad exchange outcome (its own transport
faults are swallowed into the None result). -/
theorem badExchange_of_make_error {ctx : Ctx} {inst : MpesaInst} {st : St}
    (h : make_request ctx inst st = Except.error ()) :
    badExchange (ctx.exchFn st.exchCount) := by
  simp only [make_request] at h
  cases he : ensure_valid_token ctx inst st with
  | error e => cases e; exact badExchange_of_ensure_error he
  | ok p =>
    obtain ⟨i1, s1⟩ := p
    simp only [he] at h
    cases hn : ctx.netFn s1.netCount with
    | fail => simp only [hn] at h; exact absurd h (by simp)
    | resp status body =>
      simp only [hn] at h
      split at h
      · exact absurd h (by simp)
      · exact absurd h (by simp)

/-- A completed _make_request preserves-or-wholesale-replaces the shared
token state, and any response it hands back has a status outside
[400, 600): raise_for_status filtered the rest out. -/
theorem make_request_ok_cases {ctx : Ctx} {inst : MpesaInst} {st : St}
    {res : ReqResult} {i1 : MpesaInst} {s1 : St}
    (h : make_request ctx inst st = Except.ok (res, i1, s1)) :
    (s1.shared = st.shared ∨ refreshedFrom ctx s1.shared) ∧
    (∀ status body, res = ReqResult.response status body →
       ¬(400 ≤ status ∧ status < 600)) := by
  simp only [make_request] at h
  cases he : ensure_valid_token ctx inst st with
  | error e => simp only [he] at h; exact absurd h (by simp)
  | ok p =>
    obtain ⟨i2, s2⟩ := p
    have hs := shared_of_ensure_ok he
    simp only [he] at h
    cases hn : ctx.netFn s2.netCount with
    | fail =>
      simp only [hn, Except.ok.injEq, Prod.mk.injEq] at h
      constructor
      · rw [← h.2.2]
        exact hs
      · intro status body hres
        rw [← h.1] at hres
        exact absurd hres (by simp)
    | resp status body =>
      simp only [hn] at h
      split at h
      · rename_i hcond
        simp only [Except.ok.injEq, Prod.mk.injEq] at h
        constructor
        · rw [← h.2.2]
          exact hs
        · intro status2 body2 hres
          rw [← h.1] at hres
          exact absurd hres (by simp)
      · rename_i hcond
        simp only [Except.ok.injEq, Prod.mk.injEq] at h
        constructor
        · rw [← h.2.2]
          exact hs
        · intro status2 body2 hres
          rw [← h.1] at hres
          injection hres with e1 e2
          rw [← e1]
          exact hcond

/-- A status other than 401 never matches the stale-token check. -/
theorem isStale_eq_false_of_ne (body : Json) {status : Nat} (h : status ≠ 401) :
    isStaleTokenResponse status body = false := by
  unfold isStaleTokenResponse
  have hb : (status == 401) = false := beq_eq_false_iff_ne.mpr h
  rw [hb, Bool.false_and]

/-- Every _process_and_request run either returns a (body, status) pair or
raises, and it raises only when some exchange outcome was bad. -/
theorem process_cases (ctx : Ctx) (inst : MpesaInst) (validated : Option Json) (st : St) :
    (∃ body status i1 s1,
       process_and_request ctx inst validated st = Except.ok ((body, status), i1, s1)) ∨
    (process_and_request ctx inst validated st = Except.error () ∧
       badExchange (ctx.exchFn st.exchCount)) := by
  cases validated with
  | none => exact Or.inl ⟨validationErrorBody, 400, inst, st, rfl⟩
  | some payload =>
    cases hm : make_request ctx inst st with
    | error e =>
      cases e
      refine Or.inr ⟨?_, badExchange_of_make_error hm⟩
      simp only [process_and_request, hm]
    | ok t =>
      obtain ⟨res, i1, s1⟩ := t
      cases res with
      | failed =>
        exact Or.inl ⟨requestFailedBody, 500, i1, s1, by simp only [process_and_request, hm]⟩
      | response status body =>
        have hne : status ≠ 401 := by
          intro hc
          refine (make_request_ok_cases hm).2 status body rfl ?_
          rw [hc]
          exact ⟨by norm_num, by norm_num⟩
        have hstale := isStale_eq_false_of_ne body hne
        exact Or.inl ⟨body, status, i1, s1, by simp [process_and_request, hm, hstale]⟩

/-- A completed _process_and_request run leaves the shared token state
unchanged or wholesale-replaced by a successful exchange. -/
theorem shared_of_process_ok {ctx : Ctx} {inst : MpesaInst} {validated : Option Json}
    {st : St} {r : Json × Nat} {i1 : MpesaInst} {s1 : St}
    (h : process_and_request ctx inst validated st = Except.ok (r, i1, s1)) :
    s1.shared = st.shared ∨ refreshedFrom ctx s1.shared := by
  cases validated with
  | none =>
    simp only [process_and_request, Except.ok.injEq, Prod.mk.injEq] at h
    rw [← h.2.2]
    exact Or.inl rfl
  | some payload =>
    cases hm : make_request ctx inst st with
    | error e => simp only [process_and_request, hm] at h; exact absurd h (by simp)
    | ok t =>
      obtain ⟨res, i2, s2⟩ := t
      have hs2 := (make_request_ok_cases hm).1
      cases res with
      | failed =>
        simp only [process_and_request, hm, Except.ok.injEq, Prod.mk.injEq] at h
        rw [← h.2.2]
        exact hs2
      | response status body =>
        simp only [process_and_request, hm] at h
        cases hcond : isStaleTokenResponse status body with
        | false =>
          simp only [hcond, Bool.false_eq_true, if_false, Except.ok.injEq, Prod.mk.injEq] at h
          rw [← h.2.2]
          exact hs2
        | true =>
          simp only [hcond, if_true] at h
          cases hset : set_access_token ctx i2 s2 with
          | error e => simp only [hset] at h; exact absurd h (by simp)
          | ok q =>
            obtain ⟨i3, s3⟩ := q
            have hs3 : refreshedFrom ctx s3.shared := refreshedFrom_of_set_ok hset
            simp only [hset] at h
            cases hm2 : make_request ctx i3 s3 with
            | error e => simp only [hm2] at h; exact absurd h (by simp)
            | ok t2 =>
              obtain ⟨res2, i4, s4⟩ := t2
              have hs4 := (make_request_ok_cases hm2).1
              have hend : s4.shared = st.shared ∨ refreshedFrom ctx s4.shared := by
                cases hs4 with
                | inl e2 => rw [e2]; exact Or.inr hs3
                | inr r2 => exact Or.inr r2
              cases res2 with
              | failed =>
                simp only [hm2, Except.ok.injEq, Prod.mk.injEq] at h
                rw [← h.2.2]
                exact hend
              | response st2 b2 =>
                simp only [hm2, Except.ok.injEq, Prod.mk.injEq] at h
                rw [← h.2.2]
                exact hend

/-- With an unexpired token and a response whose status escapes
raise_for_status, _make_request returns that response after one HTTP call
and touches nothing else. -/
theorem make_request_success {ctx : Ctx} (inst : MpesaInst) (st : St) {e : Int}
    {body : Json} {status : Nat}
    (he : st.shared.token_expiry = some e) (hlt : ctx.now < e)
    (hn : ctx.netFn st.netCount = NetEvent.resp status body)
    (hrange : ¬(400 ≤ status ∧ status < 600)) :
    make_request ctx inst st =
      Except.ok (ReqResult.response status body, inst,
        { st with netCount := st.netCount + 1 }) := by
  have hexp : is_token_expired ctx st.shared = false := by
    unfold is_token_expired
    rw [he]
    simp only [decide_eq_false_iff_not]
    omega
  simp only [make_request, ensure_valid_token, hexp, Bool.false_eq_true, if_false]
  simp [hn, hrange]

/-! Concrete fixtures used by the closed theorems and the witnesses. -/

/-- An exchange collaborator that always succeeds with a fresh token. -/
def goodExchFn : Nat → Option TokenData :=
  fun _ => some { access_token := some "freshtok", expires_in := some 3600 }

/-- A constructed client instance holding the current bearer header. -/
def testInst : MpesaInst :=
  { consumer_key := "ck", consumer_secret := "cs", env := "sandbox",
    headers := some "Bearer tok0" }

/-- Shared state with a token that is still valid at time 0. -/
def validSt : St :=
  { shared := { access_token := some "tok0", token_expiry := some 100 },
    exchCount := 0, netCount := 0 }

/-- Shared state whose token expired exactly at time 0. -/
def expSt : St :=
  { shared := { access_token := some "tok0", token_expiry := some 0 },
    exchCount := 0, netCount := 0 }

/-- A world where every HTTP call returns 200 with a small JSON object. -/
def okCtx : Ctx :=
  { exchFn := goodExchFn,
    netFn := fun _ => NetEvent.resp 200 (Json.obj [("a", Json.num 7)]),
    now := 0 }

/-- A world where the token exchange always fails. -/
def badCtx : Ctx :=
  { exchFn := fun _ => none, netFn := fun _ => NetEvent.fail, now := 0 }

/-- A world where the server answers 400 with an ordinary error payload. -/
def c1Ctx : Ctx :=
  { exchFn := goodExchFn,
    netFn := fun _ => NetEvent.resp 400 (Json.obj [("errorMessage", Json.str "Bad Request")]),
    now := 0 }

/-- A world where the first call gets the stale-token 401 and a retried
call would succeed with 200. -/
def c2Ctx : Ctx :=
  { exchFn := goodExchFn,
    netFn := fun n =>
      if n = 0 then NetEvent.resp 401 (Json.obj [("errorCode", Json.str "404.001.03")])
      else NetEvent.resp 200 (Json.str "retry succeeded"),
    now := 0 }

/-- A world where the first call gets the stale-token 401 and a retried
call would fail at the transport level. -/
def c5Ctx : Ctx :=
  { exchFn := goodExchFn,
    netFn := fun n =>
      if n = 0 then NetEvent.resp 401 (Json.obj [("errorCode", Json.str "404.001.03")])
      else NetEvent.fail,
    now := 0 }

/-! The claims. -/

/-- C1: the claim states that non-2xx responses (other than the stale-token
sentinel) are returned verbatim as (body, status).  The code refutes it:
raise_for_status on mpesa.py line 130 turns every 4xx/5xx response into a
caught RequestException, so a 400 response with an ordinary error payload
comes back as the transformed transport-failure result
(message "Request failed", 500) instead of the verbatim (body, 400). -/
theorem claim_C1 :
    process_and_request c1Ctx testInst (some Json.null) validSt =
      Except.ok ((requestFailedBody, 500), testInst, { validSt with netCount := 1 }) := rfl

/-- C2: the claim states that a 401 response whose errorCode is 404.001.03
triggers exactly one forced refresh and one retried call.  The code refutes
it: raise_for_status makes _make_request return None for every 401, so the
check on line 156 never sees the sentinel.  In a world where the first call
answers 401 with the sentinel and a retry would succeed with 200, the final
state still has exchCount 0 (no refresh) and netCount 1 (no retry), and the
result is (message "Request failed", 500). -/
theorem claim_C2 :
    process_and_request c2Ctx testInst (some Json.null) validSt =
      Except.ok ((requestFailedBody, 500), testInst, { validSt with netCount := 1 }) := rfl

/-- C5: the claim states that a transport failure of the post-refresh retry
yields (message "Request failed after token refresh", 500).  The code
refutes the scenario: the stale-token 401 that should start the retry is
itself converted to None by raise_for_status, so no refresh or retry ever
happens: the result is the plain (message "Request failed", 500) after a
single HTTP call, and the retry-failure message is unreachable. -/
theorem claim_C5 :
    process_and_request c5Ctx testInst (some Json.null) validSt =
      Except.ok ((requestFailedBody, 500), testInst, { validSt with netCount := 1 }) := rfl

/-- C3: no operation call raises an uncaught fault: every dispatch either
returns a (body, status) result, or raises the authentication failure, and
the latter only because a token exchange failed or returned no token. -/
theorem claim_C3 (ctx : Ctx) (inst : MpesaInst) (v : Validators) (op : Operation)
    (data : Json) (st : St) :
    (∃ body status i1 s1,
       dispatch ctx inst v op data st = Except.ok ((body, status), i1, s1)) ∨
    (dispatch ctx inst v op data st = Except.error () ∧
       badExchange (ctx.exchFn st.exchCount)) :=
  process_cases ctx inst (v op data) st

/-- C4: for every operation, a payload rejected by the operation validator
yields exactly (message "Validation error", 400), and the returned state is
the input state: in particular netCount is unchanged, so no HTTP call was
issued. -/
theorem claim_C4 (ctx : Ctx) (inst : MpesaInst) (v : Validators) (op : Operation)
    (data : Json) (st : St) (h : v op data = none) :
    dispatch ctx inst v op data st =
      Except.ok ((validationErrorBody, 400), inst, st) := by
  unfold dispatch
  rw [h]
  rfl

/-- Witness for C4 at a concrete rejecting validator. -/
theorem claim_C4_witness :
    dispatch okCtx testInst (fun _ _ => none) Operation.reversal Json.null validSt =
      Except.ok ((validationErrorBody, 400), testInst, validSt) :=
  claim_C4 okCtx testInst (fun _ _ => none) Operation.reversal Json.null validSt rfl

/-- C6: _ensure_valid_token issues no exchange when now is strictly before
the stored expiry, and issues exactly one exchange (exchCount + 1) when the
token is absent or expired, a successful exchange storing the expiry as
now + expires_in with expires_in defaulting to 3600.  The absent-token case
uses the reachable-state invariant that the token is none only when the
expiry is none, since both class attributes start as None and are only
written together. -/
theorem claim_C6 (ctx : Ctx) (inst : MpesaInst) (st : St) :
    (∀ e : Int, st.shared.token_expiry = some e → ctx.now < e →
       ensure_valid_token ctx inst st = Except.ok (inst, st)) ∧
    ((st.shared.access_token = none → st.shared.token_expiry = none) →
     (st.shared.access_token = none ∨ st.shared.token_expiry = none ∨
        ∃ e : Int, st.shared.token_expiry = some e ∧ e ≤ ctx.now) →
     ∀ td tok, ctx.exchFn st.exchCount = some td → td.access_token = some tok →
       ensure_valid_token ctx inst st =
         Except.ok ({ inst with headers := some ("Bearer " ++ tok) },
           { st with exchCount := st.exchCount + 1,
                     shared := { access_token := some tok,
                                 token_expiry := some (ctx.now + td.expires_in.getD 3600) } })) := by
  constructor
  · intro e he hlt
    have hexp : is_token_expired ctx st.shared = false := by
      unfold is_token_expired
      rw [he]
      simp only [decide_eq_false_iff_not]
      omega
    simp [ensure_valid_token, hexp]
  · intro hinv hcase td tok hx ht
    have hexp : is_token_expired ctx st.shared = true := by
      unfold is_token_expired
      rcases hcase with h1 | h2 | ⟨e, he, hle⟩
      · rw [hinv h1]
      · rw [h2]
      · rw [he]
        simp only [decide_eq_true_eq]
        exact hle
    simp only [ensure_valid_token, hexp, if_true]
    simp [set_access_token, hx, ht]

/-- Witness for C6: a valid token is a no-op, an expired one triggers the
single exchange with the 3600-second expiry stored. -/
theorem claim_C6_witness :
    ensure_valid_token okCtx testInst validSt = Except.ok (testInst, validSt) ∧
    ensure_valid_token okCtx testInst expSt =
      Except.ok ({ testInst with headers := some "Bearer freshtok" },
        { expSt with exchCount := 1,
                     shared := { access_token := some "freshtok",
                                 token_expiry := some 3600 } }) :=
  ⟨(claim_C6 okCtx testInst validSt).1 100 rfl (by decide),
   (claim_C6 okCtx testInst expSt).2 (fun hc => Option.noConfusion hc)
     (Or.inr (Or.inr ⟨0, rfl, le_refl 0⟩))
     { access_token := some "freshtok", expires_in := some 3600 } "freshtok" rfl rfl⟩

/-- C7: whenever the exchange outcome is bad (no dict or no access_token
field), _set_access_token raises the authentication failure, and the raise
propagates uncaught out of every refresh site: _ensure_valid_token, client
construction and a dispatched operation; none of them converts it into a
(body, status) result. -/
theorem claim_C7 (ctx : Ctx) (inst : MpesaInst) (st : St) (key secret environ : String)
    (h : badExchange (ctx.exchFn st.exchCount)) :
    set_access_token ctx inst st = Except.error () ∧
    (is_token_expired ctx st.shared = true →
       ensure_valid_token ctx inst st = Except.error ()) ∧
    ((st.shared.access_token.isNone || is_token_expired ctx st.shared) = true →
       mkMpesa ctx key secret environ st = Except.error ()) ∧
    (∀ (v : Validators) (op : Operation) (data payload : Json),
       v op data = some payload → is_token_expired ctx st.shared = true →
       dispatch ctx inst v op data st = Except.error ()) := by
  have hset : ∀ inst2 : MpesaInst, set_access_token ctx inst2 st = Except.error () :=
    fun inst2 => set_access_token_error inst2 st h
  refine ⟨hset inst, ?_, ?_, ?_⟩
  · intro hexp
    simp [ensure_valid_token, hexp, hset inst]
  · intro hcond
    simp only [mkMpesa, hcond, if_true]
    rw [hset _]
  · intro v op data payload hv hexp
    have hens : ensure_valid_token ctx inst st = Except.error () := by
      simp [ensure_valid_token, hexp, hset inst]
    have hmk : make_request ctx inst st = Except.error () := by
      simp [make_request, hens]
    simp [dispatch, process_and_request, hv, hmk]

/-- Witness for C7 in the world where every exchange fails. -/
theorem claim_C7_witness :
    set_access_token badCtx testInst expSt = Except.error () ∧
    mkMpesa badCtx "k" "s" "sandbox" expSt = Except.error () ∧
    dispatch badCtx testInst (fun _ _ => some Json.null) Operation.b2bPayment
      Json.null expSt = Except.error () :=
  ⟨(claim_C7 badCtx testInst expSt "k" "s" "sandbox" trivial).1,
   (claim_C7 badCtx testInst expSt "k" "s" "sandbox" trivial).2.2.1 rfl,
   (claim_C7 badCtx testInst expSt "k" "s" "sandbox" trivial).2.2.2
     (fun _ _ => some Json.null) Operation.b2bPayment Json.null Json.null rfl rfl⟩

/-- C8: token and expiry are never partially updated: any completed
operation (dispatch covers all 9 operation kinds through its op argument)
and any completed construction leaves the shared token state either exactly
as it was or wholesale-replaced, token and expiry together, by one
successful exchange outcome. -/
theorem claim_C8 (ctx : Ctx) (inst : MpesaInst) (v : Validators) (op : Operation)
    (data : Json) (st : St) :
    (∀ r i1 s1, dispatch ctx inst v op data st = Except.ok (r, i1, s1) →
       s1.shared = st.shared ∨ refreshedFrom ctx s1.shared) ∧
    (∀ (key secret environ : String) (i1 : MpesaInst) (s1 : St),
       mkMpesa ctx key secret environ st = Except.ok (i1, s1) →
       s1.shared = st.shared ∨ refreshedFrom ctx s1.shared) := by
  constructor
  · intro r i1 s1 h
    exact shared_of_process_ok h
  · intro key secret environ i1 s1 h
    unfold mkMpesa at h
    split at h
    · cases hset : set_access_token ctx ⟨key, secret, environ, none⟩ st with
      | error e => simp only [hset] at h; exact absurd h (by simp)
      | ok q =>
        obtain ⟨i2, s2⟩ := q
        simp only [hset, Except.ok.injEq, Prod.mk.injEq] at h
        rw [← h.2]
        exact Or.inr (refreshedFrom_of_set_ok hset)
    · simp only [Except.ok.injEq, Prod.mk.injEq] at h
      rw [← h.2]
      exact Or.inl rfl

/-- Witness for C8 at a concrete completed dispatch. -/
theorem claim_C8_witness :
    ({ validSt with netCount := 1 } : St).shared = validSt.shared ∨
      refreshedFrom okCtx ({ validSt with netCount := 1 } : St).shared :=
  (claim_C8 okCtx testInst (fun _ _ => some Json.null) Operation.b2bPayment
      Json.null validSt).1
    (Json.obj [("a", Json.num 7)], 200) testInst { validSt with netCount := 1 } rfl

/-- C9: a dispatched operation whose HTTP call completes with status 200
and an arbitrary JSON body returns exactly that body and status code,
unchanged, after a single HTTP call. -/
theorem claim_C9 (ctx : Ctx) (inst : MpesaInst) (v : Validators) (op : Operation)
    (data payload : Json) (st : St) (e : Int) (body : Json)
    (hv : v op data = some payload)
    (he : st.shared.token_expiry = some e) (hlt : ctx.now < e)
    (hn : ctx.netFn st.netCount = NetEvent.resp 200 body) :
    dispatch ctx inst v op data st =
      Except.ok ((body, 200), inst, { st with netCount := st.netCount + 1 }) := by
  have hmk := make_request_success inst st he hlt hn (by omega)
  have hstale : isStaleTokenResponse 200 body = false :=
    isStale_eq_false_of_ne body (by omega)
  simp [dispatch, process_and_request, hv, hmk, hstale]

/-- Witness for C9 at a concrete 200 response. -/
theorem claim_C9_witness :
    dispatch okCtx testInst (fun _ _ => some Json.null) Operation.accountBalance
      Json.null validSt =
      Except.ok ((Json.obj [("a", Json.num 7)], 200), testInst,
        { validSt with netCount := 1 }) :=
  claim_C9 okCtx testInst (fun _ _ => some Json.null) Operation.accountBalance
    Json.null Json.null validSt 100 (Json.obj [("a", Json.num 7)]) rfl rfl (by decide) rfl

/-- C10: the token is class-level state shared by all instances: a refresh
performed while dispatching through instance A rewrites the shared state
that every instance reads, and constructing a new instance B afterwards,
while that shared token is unexpired, issues no exchange (the state,
exchCount included, comes back untouched) and stamps A's refreshed token
into B's Authorization header. -/
theorem claim_C10 (ctx : Ctx) (instA : MpesaInst) (key secret environ : String)
    (st : St) (td : TokenData) (tok : String)
    (hexp : is_token_expired ctx st.shared = true)
    (hx : ctx.exchFn st.exchCount = some td)
    (ht : td.access_token = some tok)
    (hfresh : 0 < td.expires_in.getD 3600) :
    ensure_valid_token ctx instA st =
      Except.ok ({ instA with headers := some ("Bearer " ++ tok) },
        { st with exchCount := st.exchCount + 1,
                  shared := { access_token := some tok,
                              token_expiry := some (ctx.now + td.expires_in.getD 3600) } }) ∧
    mkMpesa ctx key secret environ
        { st with exchCount := st.exchCount + 1,
                  shared := { access_token := some tok,
                              token_expiry := some (ctx.now + td.expires_in.getD 3600) } } =
      Except.ok ({ consumer_key := key, consumer_secret := secret, env := environ,
                   headers := some ("Bearer " ++ tok) },
        { st with exchCount := st.exchCount + 1,
                  shared := { access_token := some tok,
                              token_expiry := some (ctx.now + td.expires_in.getD 3600) } }) := by
  constructor
  · simp only [ensure_valid_token, hexp, if_true]
    simp [set_access_token, hx, ht]
  · have hle : ¬(ctx.now + td.expires_in.getD 3600 ≤ ctx.now) := by omega
    simp [mkMpesa, is_token_expired, hle, bearerHeader]

/-- Witness for C10: a concrete refresh through one instance followed by an
exchange-free construction of a second instance reusing the new token. -/
theorem claim_C10_witness :
    ensure_valid_token okCtx testInst expSt =
      Except.ok ({ testInst with headers := some "Bearer freshtok" },
        { expSt with exchCount := 1,
                     shared := { access_token := some "freshtok",
                                 token_expiry := some 3600 } }) ∧
    mkMpesa okCtx "k2" "s2" "production"
        { expSt with exchCount := 1,
                     shared := { access_token := some "freshtok",
                                 token_expiry := some 3600 } } =
      Except.ok ({ consumer_key := "k2", consumer_secret := "s2", env := "production",
                   headers := some "Bearer freshtok" },
        { expSt with exchCount := 1,
                     shared := { access_token := some "freshtok",
                                 token_expiry := some 3600 } }) :=
  claim_C10 okCtx testInst "k2" "s2" "production" expSt
    { access_token := some "freshtok", expires_in := some 3600 } "freshtok"
    rfl rfl rfl (by decide)

end Pympesa
